import Mathlib

/-!
Verification development for the biophase-storefront cart synchronizer.

The definitions below are a shallow embedding of the client-side cart logic:

* the remote-cart variant with lazy restore from
  `src/docs/shopify-setup.md` (cartReducer, normalizeCart, persistCartId,
  loadCartId, handleAddToCart, handleUpdateQuantity, handleRemoveItem, and
  the derived itemCount / subtotal / currencyCode values), embedded in the
  `Remote` namespace; and
* the pure-local cart variant from `src/lib/cartContext.js`
  (handleAddToCart, handleUpdateQuantity, handleRemoveItem,
  handleClearCart), embedded in the `LocalCart` namespace.

Modelling conventions:

* JavaScript numbers used as quantities are modelled as `Int`
  (the code compares quantities against 0 with `<=`).
* Decimal money amounts (`variant.priceV2.amount`, a decimal string in the
  source, consumed through `parseFloat`) are modelled as `Rat`; `parseFloat`
  on such a field is the identity of the model.
* JavaScript truthiness tests on strings (`image?.url || null`,
  `state.items[0]?.currencyCode || 'USD'`, `if (cartId)`) treat the empty
  string as falsy; the model tests `= ""` explicitly.
* `localStorage` is modelled by `RawStored`: the stored JSON either is
  absent, parses to a non-null object (whose optional `cartId` field is
  kept), parses to JSON `null` (so that a property access on the parse
  result throws), or fails to parse.  `try/catch` around storage access is
  modelled by total functions over `RawStored`.
* The asynchronous gateway (the `/api/cart/...` fetches) is an oracle
  `Gateway : RemoteCall → Except String RemoteCart`: each handler issues
  exactly one remote call and branches on its result; a thrown/propagated
  failure is the `Except.error` case carrying the thrown message.
* `generateLineId` (random) of the local variant is a parameter.
-/

/-- One node of `product.images.edges` in a Shopify response. -/
structure ImageNode where
  url : Option String
  altText : Option String
deriving DecidableEq, Repr

/-- The `product` object nested in a Shopify cart line's merchandise. -/
structure ProductInfo where
  title : String
  handle : String
  images : List ImageNode
deriving DecidableEq, Repr

/-- The `merchandise` (variant) object of a Shopify cart line:
`id`, `title`, `priceV2 { amount currencyCode }`, `product`. -/
structure VariantInfo where
  id : String
  title : String
  priceAmount : Rat
  priceCurrency : String
  product : ProductInfo
deriving DecidableEq, Repr

/-- One cart line `node` of a Shopify cart response. -/
structure CartLine where
  id : String
  quantity : Int
  merchandise : VariantInfo
deriving DecidableEq, Repr

/-- A raw Shopify cart resource as returned by the gateway:
`{ id, checkoutUrl, lines }` (the `edges/node` nesting is flattened into
the list). -/
structure RemoteCart where
  id : String
  checkoutUrl : String
  lines : List CartLine
deriving DecidableEq, Repr

/-- The local cart item shape documented in both cart-context variants:
`{ id, variantId, productTitle, productHandle, variantTitle, price,
currencyCode, quantity, imageUrl, imageAlt }`. -/
structure Item where
  id : String
  variantId : String
  productTitle : String
  productHandle : String
  variantTitle : String
  price : Rat
  currencyCode : String
  quantity : Int
  imageUrl : Option String
  imageAlt : String
deriving DecidableEq, Repr

/-- A line input `{ merchandiseId, quantity }` sent to create/add calls. -/
structure CartLineInput where
  merchandiseId : String
  quantity : Int
deriving DecidableEq, Repr

/-- A line input `{ id, quantity }` sent to the update call. -/
structure UpdateLineInput where
  id : String
  quantity : Int
deriving DecidableEq, Repr

/-- The remote calls a handler can issue (the `/api/cart/...` endpoints,
REST equivalents of cartCreate / cartLinesAdd / cartLinesUpdate /
cartLinesRemove). -/
inductive RemoteCall where
  | create (lines : List CartLineInput)
  | add (cartId : String) (lines : List CartLineInput)
  | update (cartId : String) (lines : List UpdateLineInput)
  | remove (cartId : String) (lineIds : List String)
deriving DecidableEq, Repr

/-- The gateway oracle: each issued remote call either returns a cart
resource or fails with the message the handler ends up catching. -/
def Gateway : Type := RemoteCall → Except String RemoteCart

/-- The durable store (`localStorage` under the cart key).
`objVal c` is data that parses to a non-null value whose `cartId` field is
`c` (`none` when the field is missing); `nullVal` parses to JSON `null`
(so `parsed.cartId` throws); `invalid` fails `JSON.parse`. -/
inductive RawStored where
  | absent
  | objVal (cartId : Option String)
  | nullVal
  | invalid
deriving DecidableEq, Repr

namespace Remote

/-- Reducer state of the remote variant:
`{ cartId, checkoutUrl, items, loading, error }`. -/
structure CartState where
  cartId : Option String
  checkoutUrl : Option String
  items : List Item
  loading : Bool
  error : Option String
deriving DecidableEq, Repr

/-- `initialState = { cartId: null, checkoutUrl: null, items: [],
loading: false, error: null }`. -/
def initialState : CartState :=
  { cartId := none, checkoutUrl := none, items := [], loading := false,
    error := none }

/-- The `SET_CART` payload `{ cartId, checkoutUrl, items }`; `cartId` and
`checkoutUrl` are optional because the mount-time restore dispatches
`{ cartId: storedCartId, checkoutUrl: null, items: [] }`. -/
structure CartPayload where
  cartId : Option String
  checkoutUrl : Option String
  items : List Item
deriving DecidableEq, Repr

/-- The reducer actions of the remote variant. -/
inductive Action where
  | setCart (payload : CartPayload)
  | setLoading
  | setError (message : String)
  | clearCart
deriving DecidableEq, Repr

/-- `cartReducer` of the remote variant (doc lines 547-567). -/
def cartReducer (state : CartState) (action : Action) : CartState :=
  match action with
  | .setCart payload =>
      { state with
        cartId := payload.cartId,
        checkoutUrl := payload.checkoutUrl,
        items := payload.items,
        loading := false,
        error := none }
  | .setLoading => { state with loading := true, error := none }
  | .setError message => { state with loading := false, error := some message }
  | .clearCart => initialState

/-- `normalizeCart` applied to one line: pick the first product image,
with `image?.url || null` and `image?.altText || product.title`
(JS: empty string is falsy). -/
def normalizeItem (line : CartLine) : Item :=
  let variant := line.merchandise
  let product := variant.product
  let image := product.images.head?
  { id := line.id
    variantId := variant.id
    productTitle := product.title
    productHandle := product.handle
    variantTitle := variant.title
    price := variant.priceAmount
    currencyCode := variant.priceCurrency
    quantity := line.quantity
    imageUrl :=
      match image with
      | none => none
      | some img =>
          match img.url with
          | none => none
          | some u => if u = "" then none else some u
    imageAlt :=
      match image with
      | none => product.title
      | some img =>
          match img.altText with
          | none => product.title
          | some a => if a = "" then product.title else a }

/-- Result shape of `normalizeCart`:
`{ cartId: string, checkoutUrl: string, items }`. -/
structure NormalizedCart where
  cartId : String
  checkoutUrl : String
  items : List Item
deriving DecidableEq, Repr

/-- `normalizeCart` (doc lines 574-600): project the raw cart's lines into
the local item shape. -/
def normalizeCart (cart : RemoteCart) : NormalizedCart :=
  { cartId := cart.id
    checkoutUrl := cart.checkoutUrl
    items := cart.lines.map normalizeItem }

/-- View a normalization result as a `SET_CART` payload (the JS object is
passed to `dispatch` unchanged; optionality is only used by the restore
path). -/
def NormalizedCart.toPayload (n : NormalizedCart) : CartPayload :=
  { cartId := some n.cartId, checkoutUrl := some n.checkoutUrl,
    items := n.items }

/-- `persistCartId` (doc lines 606-612): `if (cartId)` store
`JSON.stringify({cartId})`, else remove the key.  The empty string is
falsy in JS, so it also removes. -/
def persistCartId (cartId : Option String) : RawStored :=
  match cartId with
  | some c => if c = "" then .absent else .objVal (some c)
  | none => .absent

/-- `loadCartId` (doc lines 614-626): read the key, `JSON.parse` it,
return `parsed.cartId || null`; on a throw, remove the key and return
`null`.  Returns the loaded handle and the storage contents afterwards. -/
def loadCartId (store : RawStored) : Option String × RawStored :=
  match store with
  | .absent => (none, .absent)
  | .objVal c =>
      (match c with
       | none => none
       | some s => if s = "" then none else some s, .objVal c)
  | .nullVal => (none, .absent)
  | .invalid => (none, .absent)

/-- A world: the reducer state, the durable store, and the log of remote
calls issued so far (appended to by every handler). -/
structure World where
  state : CartState
  store : RawStored
  calls : List RemoteCall
deriving DecidableEq, Repr

/-- The single remote call `handleAddToCart` issues: create-with-initial-
line when no handle exists, add-lines against the handle otherwise. -/
def addCall (state : CartState) (variantId : String) (quantity : Int) :
    RemoteCall :=
  match state.cartId with
  | none => .create [⟨variantId, quantity⟩]
  | some cid => .add cid [⟨variantId, quantity⟩]

/-- `handleAddToCart` (doc lines 651-686): dispatch `SET_LOADING`; with no
handle POST create with the one line, otherwise POST add; on success
normalize, persist the returned cart id, dispatch `SET_CART`; on a thrown
failure dispatch `SET_ERROR` with the message. -/
def handleAddToCart (gw : Gateway) (w : World) (variantId : String)
    (quantity : Int) : World :=
  let s1 := cartReducer w.state .setLoading
  let call := addCall w.state variantId quantity
  match gw call with
  | .ok cart =>
      let normalized := normalizeCart cart
      { state := cartReducer s1 (.setCart normalized.toPayload)
        store := persistCartId (some normalized.cartId)
        calls := w.calls ++ [call] }
  | .error message =>
      { state := cartReducer s1 (.setError message)
        store := w.store
        calls := w.calls ++ [call] }

/-- The single remote call `handleUpdateQuantity` issues against a live
handle: the remove endpoint for non-positive quantities, the update
endpoint otherwise. -/
def updateCall (cartId lineId : String) (quantity : Int) : RemoteCall :=
  if quantity ≤ 0 then .remove cartId [lineId]
  else .update cartId [⟨lineId, quantity⟩]

/-- `handleUpdateQuantity` (doc lines 694-729): no-op without a handle;
dispatch `SET_LOADING`; for `quantity <= 0` POST remove of the line and
either persist-and-set the non-empty cart or persist `null` and dispatch
`CLEAR_CART`; otherwise POST update and dispatch `SET_CART`; on a thrown
failure dispatch `SET_ERROR`. -/
def handleUpdateQuantity (gw : Gateway) (w : World) (lineId : String)
    (quantity : Int) : World :=
  match w.state.cartId with
  | none => w
  | some cid =>
      let s1 := cartReducer w.state .setLoading
      if quantity ≤ 0 then
        let call := RemoteCall.remove cid [lineId]
        match gw call with
        | .ok cart =>
            let normalized := normalizeCart cart
            { state := cartReducer s1
                (if normalized.items.length > 0 then
                  .setCart normalized.toPayload
                 else .clearCart)
              store := persistCartId
                (if normalized.items.length > 0 then some normalized.cartId
                 else none)
              calls := w.calls ++ [call] }
        | .error message =>
            { state := cartReducer s1 (.setError message)
              store := w.store
              calls := w.calls ++ [call] }
      else
        let call := RemoteCall.update cid [⟨lineId, quantity⟩]
        match gw call with
        | .ok cart =>
            let normalized := normalizeCart cart
            { state := cartReducer s1 (.setCart normalized.toPayload)
              store := w.store
              calls := w.calls ++ [call] }
        | .error message =>
            { state := cartReducer s1 (.setError message)
              store := w.store
              calls := w.calls ++ [call] }

/-- `handleRemoveItem` (doc lines 735-758): no-op without a handle;
dispatch `SET_LOADING`; POST remove of the line; if the normalized result
has no items persist `null` and dispatch `CLEAR_CART`, else dispatch
`SET_CART` (storage untouched); on a thrown failure dispatch
`SET_ERROR`. -/
def handleRemoveItem (gw : Gateway) (w : World) (lineId : String) : World :=
  match w.state.cartId with
  | none => w
  | some cid =>
      let s1 := cartReducer w.state .setLoading
      let call := RemoteCall.remove cid [lineId]
      match gw call with
      | .ok cart =>
          let normalized := normalizeCart cart
          if normalized.items.length = 0 then
            { state := cartReducer s1 .clearCart
              store := persistCartId none
              calls := w.calls ++ [call] }
          else
            { state := cartReducer s1 (.setCart normalized.toPayload)
              store := w.store
              calls := w.calls ++ [call] }
      | .error message =>
          { state := cartReducer s1 (.setError message)
            store := w.store
            calls := w.calls ++ [call] }

/-- `itemCount = state.items.reduce((sum, i) => sum + i.quantity, 0)`. -/
def itemCount (items : List Item) : Int :=
  items.foldl (fun sum i => sum + i.quantity) 0

/-- `subtotal = state.items.reduce((sum, i) => sum + parseFloat(i.price) *
i.quantity, 0)`. -/
def subtotal (items : List Item) : Rat :=
  items.foldl (fun sum i => sum + i.price * i.quantity) 0

/-- `currencyCode = state.items[0]?.currencyCode || 'USD'`. -/
def currencyCodeOf (items : List Item) : String :=
  match items.head? with
  | none => "USD"
  | some i => if i.currencyCode = "" then "USD" else i.currencyCode

end Remote

namespace LocalCart

/-- Reducer state of the pure-local variant (`src/lib/cartContext.js`):
`{ items, loading, error }`. -/
structure CartState where
  items : List Item
  loading : Bool
  error : Option String
deriving DecidableEq, Repr

/-- `initialState = { items: [], loading: false, error: null }`. -/
def initialState : CartState :=
  { items := [], loading := false, error := none }

/-- The reducer actions of the local variant. -/
inductive Action where
  | setItems (payload : List Item)
  | setLoading
  | setError (message : String)
  | clearCart
deriving DecidableEq, Repr

/-- `cartReducer` of the local variant (cartContext.js lines 29-42). -/
def cartReducer (state : CartState) (action : Action) : CartState :=
  match action with
  | .setItems payload =>
      { state with items := payload, loading := false, error := none }
  | .setLoading => { state with loading := true, error := none }
  | .setError message => { state with loading := false, error := some message }
  | .clearCart => initialState

/-- The fresh item built by the local `handleAddToCart` when the variant is
not in the cart yet; `newId` stands for the random `generateLineId()`. -/
def newItemOf (newId : String) (product : ProductInfo) (variant : VariantInfo)
    (quantity : Int) : Item :=
  let image := product.images.head?
  { id := newId
    variantId := variant.id
    productTitle := product.title
    productHandle := product.handle
    variantTitle := variant.title
    price := variant.priceAmount
    currencyCode := variant.priceCurrency
    quantity := quantity
    imageUrl :=
      match image with
      | none => none
      | some img =>
          match img.url with
          | none => none
          | some u => if u = "" then none else some u
    imageAlt :=
      match image with
      | none => product.title
      | some img =>
          match img.altText with
          | none => product.title
          | some a => if a = "" then product.title else a }

/-- `handleAddToCart` (cartContext.js lines 83-111): if some item already
has this `variantId`, bump every such item's quantity via `map`; otherwise
append the freshly built item.  Returns the list dispatched with
`SET_ITEMS`. -/
def handleAddToCart (items : List Item) (newId : String)
    (product : ProductInfo) (variant : VariantInfo) (quantity : Int) :
    List Item :=
  if items.any (fun i => i.variantId = variant.id) then
    items.map (fun i =>
      if i.variantId = variant.id then { i with quantity := i.quantity + quantity }
      else i)
  else
    items ++ [newItemOf newId product variant quantity]

/-- `handleRemoveItem` (cartContext.js lines 134-137): drop the line with
this id. -/
def handleRemoveItem (items : List Item) (lineId : String) : List Item :=
  items.filter (fun i => ¬ i.id = lineId)

/-- `handleUpdateQuantity` (cartContext.js lines 119-128): for
`quantity <= 0` delegate to `handleRemoveItem`; otherwise set the line's
quantity via `map`. -/
def handleUpdateQuantity (items : List Item) (lineId : String)
    (quantity : Int) : List Item :=
  if quantity ≤ 0 then
    handleRemoveItem items lineId
  else
    items.map (fun i => if i.id = lineId then { i with quantity := quantity } else i)

/-- `handleClearCart` (cartContext.js lines 140-142) resets to the initial
state; its item list. -/
def handleClearCart : List Item := []

/-- The at-most-one-line-per-variant invariant: the items' `variantId`s are
pairwise distinct. -/
def UniqueVariants (items : List Item) : Prop :=
  (items.map Item.variantId).Nodup

instance (items : List Item) : Decidable (UniqueVariants items) := by
  unfold UniqueVariants
  infer_instance

end LocalCart

/-! Concrete sample data used by witnesses. -/

/-- A sample product with one image. -/
def sampleProduct : ProductInfo :=
  { title := "Centrifuge", handle := "centrifuge",
    images := [{ url := some "https://img/1.png", altText := some "front" }] }

/-- A sample variant A priced 10 USD. -/
def sampleVariantA : VariantInfo :=
  { id := "gid-variant-A", title := "Default", priceAmount := 10,
    priceCurrency := "USD", product := sampleProduct }

/-- A sample variant B priced 5 USD. -/
def sampleVariantB : VariantInfo :=
  { id := "gid-variant-B", title := "Large", priceAmount := 5,
    priceCurrency := "USD", product := sampleProduct }

/-- A remote cart line of variant A with quantity 2. -/
def lineA : CartLine := { id := "line-A", quantity := 2, merchandise := sampleVariantA }

/-- A remote cart line of variant B with quantity 1. -/
def lineB : CartLine := { id := "line-B", quantity := 1, merchandise := sampleVariantB }

/-- The local item obtained by normalizing `lineA`. -/
def itemA : Item := Remote.normalizeItem lineA

/-- The local item obtained by normalizing `lineB`. -/
def itemB : Item := Remote.normalizeItem lineB

/-- A remote cart holding lines A and B. -/
def cartAB : RemoteCart :=
  { id := "cart-1", checkoutUrl := "https://checkout/1", lines := [lineA, lineB] }

/-- A remote cart holding only line A. -/
def cartOnlyA : RemoteCart :=
  { id := "cart-1", checkoutUrl := "https://checkout/1", lines := [lineA] }

/-- A remote cart with no lines. -/
def cartEmpty : RemoteCart :=
  { id := "cart-1", checkoutUrl := "https://checkout/1", lines := [] }

/-- A gateway that answers every call with `cartAB`. -/
def gwAB : Gateway := fun _ => .ok cartAB

/-- A gateway that answers every call with `cartOnlyA`. -/
def gwOnlyA : Gateway := fun _ => .ok cartOnlyA

/-- A gateway that answers every call with the empty cart. -/
def gwEmpty : Gateway := fun _ => .ok cartEmpty

/-- A sample failure message. -/
def failMsg : String := "Failed to add to cart"

/-- A gateway that fails every call with `failMsg`. -/
def gwFail : Gateway := fun _ => .error failMsg

/-- The pristine world: initial reducer state, empty storage, no calls yet. -/
def w0 : Remote.World :=
  { state := Remote.initialState, store := .absent, calls := [] }

/-- A world with a live handle whose id is also durably stored. -/
def wLive : Remote.World :=
  { state := { cartId := some "cart-1", checkoutUrl := some "https://checkout/1",
               items := [itemA, itemB], loading := false, error := none }
    store := .objVal (some "cart-1")
    calls := [] }

/-! Helper lemmas shared by the claim theorems. -/

/-- A left fold that keeps adding `f` of each element equals the initial
value plus the sum of the mapped list. -/
theorem foldl_add_map {M : Type} [AddCommMonoid M] (f : Item → M)
    (items : List Item) (init : M) :
    items.foldl (fun sum i => sum + f i) init = init + (items.map f).sum := by
  induction items generalizing init with
  | nil => simp
  | cons a t ih => simp [List.foldl_cons, ih, add_assoc]

/-- Mapping an item-transformer that preserves a projection `g` does not
change the list of `g`-values. -/
theorem map_proj_of_preserving {B : Type} (g : Item → B) (f : Item → Item)
    (hf : ∀ i, g (f i) = g i) (items : List Item) :
    (items.map f).map g = items.map g := by
  induction items with
  | nil => rfl
  | cons a t ih => simp [hf, ih]

/-- A filtered item list keeps the unique-variants invariant. -/
theorem uniqueVariants_filter (items : List Item) (p : Item → Bool)
    (h : LocalCart.UniqueVariants items) :
    LocalCart.UniqueVariants (items.filter p) := by
  unfold LocalCart.UniqueVariants at h ⊢
  exact h.sublist (List.Sublist.map _ (List.filter_sublist items))

/-! Claim theorems. -/

/-- C8: for every stored value, including corrupt or unparseable data, the
durable-store load never fails its caller: it is a total function that
returns the stored handle when the data parses to an object carrying a
non-empty `cartId` (leaving storage untouched), returns `null` and clears
the entry when parsing (or the property access on a `null` parse) throws,
returns `null` without clearing when the parsed object has no usable
`cartId`, and round-trips what `persistCartId` wrote. -/
theorem C8_load_never_fails (s : String) (c : Option String) (hs : s ≠ "") :
    Remote.loadCartId RawStored.invalid = (none, RawStored.absent) ∧
    Remote.loadCartId RawStored.nullVal = (none, RawStored.absent) ∧
    Remote.loadCartId RawStored.absent = (none, RawStored.absent) ∧
    Remote.loadCartId (RawStored.objVal (some s)) =
      (some s, RawStored.objVal (some s)) ∧
    Remote.loadCartId (RawStored.objVal none) = (none, RawStored.objVal none) ∧
    (Remote.loadCartId (Remote.persistCartId c)).1 =
      (if c = some "" then none else c) := by
  refine ⟨rfl, rfl, rfl, ?_, rfl, ?_⟩
  · simp [Remote.loadCartId, hs]
  · match c with
    | none => rfl
    | some t =>
        by_cases ht : t = "" <;>
          simp [Remote.persistCartId, Remote.loadCartId, ht]

/-- Witness for C8 at a concrete stored handle. -/
theorem C8_load_never_fails_witness :
    Remote.loadCartId (RawStored.objVal (some "cart-1")) =
      (some "cart-1", RawStored.objVal (some "cart-1")) :=
  (C8_load_never_fails "cart-1" none (by decide)).2.2.2.1

/-- C9: for every items list the derived view satisfies
`itemCount = Σ quantity` and `subtotal = Σ unitPrice * quantity`,
`currencyCode` is taken from the first line (with the documented default
"USD" for the empty cart instead of crashing), and the initial state has
zero items, `itemCount = 0` and `subtotal = 0`. -/
theorem C9_cartView_derived (items : List Item) :
    Remote.itemCount items = (items.map Item.quantity).sum ∧
    Remote.subtotal items = (items.map (fun i => i.price * (i.quantity : Rat))).sum ∧
    (∀ i, items.head? = some i → i.currencyCode ≠ "" →
      Remote.currencyCodeOf items = i.currencyCode) ∧
    Remote.currencyCodeOf [] = "USD" ∧
    Remote.initialState.items = [] ∧
    Remote.itemCount Remote.initialState.items = 0 ∧
    Remote.subtotal Remote.initialState.items = 0 := by
  refine ⟨?_, ?_, ?_, rfl, rfl, rfl, rfl⟩
  · simpa [Remote.itemCount] using foldl_add_map Item.quantity items 0
  · simpa [Remote.subtotal] using
      foldl_add_map (fun i => i.price * (i.quantity : Rat)) items 0
  · intro i hi hne
    simp [Remote.currencyCodeOf, hi, hne]

/-- Witness for C9 on the two-line sample cart: 2 + 1 = 3 items,
2 * 10 + 1 * 5 = 25 subtotal, currency of the first line. -/
theorem C9_cartView_derived_witness :
    Remote.itemCount [itemA, itemB] = ([itemA, itemB].map Item.quantity).sum ∧
    Remote.currencyCodeOf [itemA, itemB] = itemA.currencyCode := by
  have h := C9_cartView_derived [itemA, itemB]
  exact ⟨h.1, h.2.2.1 itemA rfl (by decide)⟩

/-- C10: in the pure-local cart variant every operation preserves the
at-most-one-line-per-variantId invariant; adding a variant that is already
in the cart bumps that line's quantity in place and keeps the number and
order of lines (same ids in the same order) instead of appending a second
line for the variant. -/
theorem C10_local_unique_variants (items : List Item) (newId : String)
    (product : ProductInfo) (variant : VariantInfo) (q q2 : Int)
    (lineId : String) (huniq : LocalCart.UniqueVariants items) :
    LocalCart.UniqueVariants
      (LocalCart.handleAddToCart items newId product variant q) ∧
    LocalCart.UniqueVariants (LocalCart.handleRemoveItem items lineId) ∧
    LocalCart.UniqueVariants (LocalCart.handleUpdateQuantity items lineId q2) ∧
    LocalCart.UniqueVariants LocalCart.handleClearCart ∧
    ((∃ i ∈ items, i.variantId = variant.id) →
      LocalCart.handleAddToCart items newId product variant q =
        items.map (fun i =>
          if i.variantId = variant.id then { i with quantity := i.quantity + q }
          else i) ∧
      (LocalCart.handleAddToCart items newId product variant q).length =
        items.length ∧
      (LocalCart.handleAddToCart items newId product variant q).map Item.id =
        items.map Item.id) := by
  have hbump : ∀ i : Item,
      ((fun i : Item =>
        if i.variantId = variant.id then { i with quantity := i.quantity + q }
        else i) i).variantId = i.variantId := by
    intro i
    by_cases h : i.variantId = variant.id <;> simp [h]
  have hset : ∀ i : Item,
      ((fun i : Item =>
        if i.id = lineId then { i with quantity := q2 } else i) i).variantId =
        i.variantId := by
    intro i
    by_cases h : i.id = lineId <;> simp [h]
  refine ⟨?_, ?_, ?_, ?_, ?_⟩
  · unfold LocalCart.handleAddToCart
    by_cases hany : items.any (fun i => i.variantId = variant.id)
    · simp only [hany, if_true]
      unfold LocalCart.UniqueVariants at huniq ⊢
      rw [map_proj_of_preserving Item.variantId _ hbump]
      exact huniq
    · simp only [hany, if_false]
      unfold LocalCart.UniqueVariants at huniq ⊢
      have hnotin : variant.id ∉ items.map Item.variantId := by
        intro hmem
        apply hany
        rw [List.any_eq_true]
        obtain ⟨i, hi, hid⟩ := List.mem_map.mp hmem
        exact ⟨i, hi, by simp [hid]⟩
      simp [List.nodup_append, huniq, hnotin, LocalCart.newItemOf]
  · exact uniqueVariants_filter items _ huniq
  · unfold LocalCart.handleUpdateQuantity
    by_cases hq : q2 ≤ 0
    · simp only [hq, if_true]
      exact uniqueVariants_filter items _ huniq
    · simp only [hq, if_false]
      unfold LocalCart.UniqueVariants at huniq ⊢
      rw [map_proj_of_preserving Item.variantId _ hset]
      exact huniq
  · exact List.nodup_nil
  · intro hex
    have hany : items.any (fun i => i.variantId = variant.id) = true := by
      rw [List.any_eq_true]
      obtain ⟨i, hi, hid⟩ := hex
      exact ⟨i, hi, by simp [hid]⟩
    have heq : LocalCart.handleAddToCart items newId product variant q =
        items.map (fun i =>
          if i.variantId = variant.id then { i with quantity := i.quantity + q }
          else i) := by
      unfold LocalCart.handleAddToCart
      simp only [hany, if_true]
    refine ⟨heq, ?_, ?_⟩
    · rw [heq, List.length_map]
    · rw [heq]
      refine map_proj_of_preserving Item.id _ ?_ items
      intro i
      by_cases h : i.variantId = variant.id <;> simp [h]

/-- Witness for C10: adding variant A, already in the two-line cart, keeps
the invariant and the number of lines. -/
theorem C10_local_unique_variants_witness :
    LocalCart.UniqueVariants
      (LocalCart.handleAddToCart [itemA, itemB] "line_new" sampleProduct
        sampleVariantA 3) ∧
    (LocalCart.handleAddToCart [itemA, itemB] "line_new" sampleProduct
      sampleVariantA 3).length = 2 := by
  have h := C10_local_unique_variants [itemA, itemB] "line_new" sampleProduct
    sampleVariantA 3 1 "line-A" (by decide)
  have h5 := h.2.2.2.2 ⟨itemA, List.mem_cons_self _ _, rfl⟩
  exact ⟨h.1, h5.2.1⟩

/-- C1: with a live handle `addItem` never invokes the create endpoint, and
two sequential `addItem` calls from the empty no-handle state issue exactly
one create (with the initial line) followed by one add-lines call. -/
theorem C1_single_create (gw : Gateway) (w : Remote.World) (v1 v2 : String)
    (q1 q2 : Int) (cart1 : RemoteCart)
    (hnone : w.state.cartId = none) (hcalls : w.calls = [])
    (hok : gw (RemoteCall.create [⟨v1, q1⟩]) = .ok cart1) :
    (∀ w2 : Remote.World, ∀ cid : String, ∀ vid : String, ∀ q : Int,
      w2.state.cartId = some cid →
      (Remote.handleAddToCart gw w2 vid q).calls =
        w2.calls ++ [RemoteCall.add cid [⟨vid, q⟩]]) ∧
    (Remote.handleAddToCart gw (Remote.handleAddToCart gw w v1 q1) v2 q2).calls =
      [RemoteCall.create [⟨v1, q1⟩], RemoteCall.add cart1.id [⟨v2, q2⟩]] := by
  have hadd : ∀ w2 : Remote.World, ∀ cid : String, ∀ vid : String, ∀ q : Int,
      w2.state.cartId = some cid →
      (Remote.handleAddToCart gw w2 vid q).calls =
        w2.calls ++ [RemoteCall.add cid [⟨vid, q⟩]] := by
    intro w2 cid vid q h
    cases hgw : gw (RemoteCall.add cid [⟨vid, q⟩]) <;>
      simp [Remote.handleAddToCart, Remote.addCall, h, hgw]
  refine ⟨hadd, ?_⟩
  have hstate : (Remote.handleAddToCart gw w v1 q1).state.cartId =
      some cart1.id := by
    simp [Remote.handleAddToCart, Remote.addCall, hnone, hok, Remote.cartReducer,
      Remote.NormalizedCart.toPayload, Remote.normalizeCart]
  have hfirst : (Remote.handleAddToCart gw w v1 q1).calls =
      [RemoteCall.create [⟨v1, q1⟩]] := by
    simp [Remote.handleAddToCart, Remote.addCall, hnone, hok, hcalls]
  rw [hadd _ cart1.id v2 q2 hstate, hfirst]
  rfl

/-- Witness for C1: two adds from the pristine world against the sample
gateway log one create followed by one add-lines call. -/
theorem C1_single_create_witness :
    (Remote.handleAddToCart gwAB (Remote.handleAddToCart gwAB w0 "V1" 1)
      "V2" 1).calls =
      [RemoteCall.create [⟨"V1", 1⟩], RemoteCall.add cartAB.id [⟨"V2", 1⟩]] :=
  (C1_single_create gwAB w0 "V1" "V2" 1 1 cartAB rfl rfl rfl).2

/-- C2: when the issued gateway call fails, each mutating operation leaves
the cart view (items, cartId, checkoutUrl) unchanged, resets loading to
false, records the failure message, and leaves the durable store
untouched. -/
theorem C2_failure_atomic (gw : Gateway) (w : Remote.World)
    (v lineId : String) (q : Int) (m : String) :
    (gw (Remote.addCall w.state v q) = .error m →
      (Remote.handleAddToCart gw w v q).state.items = w.state.items ∧
      (Remote.handleAddToCart gw w v q).state.cartId = w.state.cartId ∧
      (Remote.handleAddToCart gw w v q).state.checkoutUrl =
        w.state.checkoutUrl ∧
      (Remote.handleAddToCart gw w v q).state.loading = false ∧
      (Remote.handleAddToCart gw w v q).state.error = some m ∧
      (Remote.handleAddToCart gw w v q).store = w.store) ∧
    (∀ cid, w.state.cartId = some cid →
      gw (Remote.updateCall cid lineId q) = .error m →
      (Remote.handleUpdateQuantity gw w lineId q).state.items =
        w.state.items ∧
      (Remote.handleUpdateQuantity gw w lineId q).state.cartId =
        w.state.cartId ∧
      (Remote.handleUpdateQuantity gw w lineId q).state.checkoutUrl =
        w.state.checkoutUrl ∧
      (Remote.handleUpdateQuantity gw w lineId q).state.loading = false ∧
      (Remote.handleUpdateQuantity gw w lineId q).state.error = some m ∧
      (Remote.handleUpdateQuantity gw w lineId q).store = w.store) ∧
    (∀ cid, w.state.cartId = some cid →
      gw (RemoteCall.remove cid [lineId]) = .error m →
      (Remote.handleRemoveItem gw w lineId).state.items = w.state.items ∧
      (Remote.handleRemoveItem gw w lineId).state.cartId = w.state.cartId ∧
      (Remote.handleRemoveItem gw w lineId).state.checkoutUrl =
        w.state.checkoutUrl ∧
      (Remote.handleRemoveItem gw w lineId).state.loading = false ∧
      (Remote.handleRemoveItem gw w lineId).state.error = some m ∧
      (Remote.handleRemoveItem gw w lineId).store = w.store) := by
  refine ⟨?_, ?_, ?_⟩
  · intro hgw
    simp [Remote.handleAddToCart, hgw, Remote.cartReducer]
  · intro cid hcid hgw
    by_cases hq : q ≤ 0
    · rw [Remote.updateCall, if_pos hq] at hgw
      simp [Remote.handleUpdateQuantity, hcid, hq, hgw, Remote.cartReducer]
    · rw [Remote.updateCall, if_neg hq] at hgw
      simp [Remote.handleUpdateQuantity, hcid, hq, hgw, Remote.cartReducer]
  · intro cid hcid hgw
    simp [Remote.handleRemoveItem, hcid, hgw, Remote.cartReducer]

/-- Witness for C2: a failing removal against the live sample world keeps
the items and surfaces the message. -/
theorem C2_failure_atomic_witness :
    (Remote.handleRemoveItem gwFail wLive "line-B").state.items =
      wLive.state.items ∧
    (Remote.handleRemoveItem gwFail wLive "line-B").state.error =
      some failMsg := by
  have h := (C2_failure_atomic gwFail wLive "V1" "line-B" 2 failMsg).2.2
    "cart-1" rfl rfl
  exact ⟨h.1, h.2.2.2.2.1⟩

/-- C3: for every non-positive quantity, `updateQuantity` produces the same
Synchronizer state and issues the same remote call as `removeItem` (a
remove-lines call, never an update-lines call); the durable store also
coincides in every failing run, and in every successful run in which the
store held the live handle and the returned cart echoes it (the situation
of every reachable session). -/
theorem C3_nonpositive_update_is_removal (gw : Gateway) (w : Remote.World)
    (lineId : String) (q : Int) (hq : q ≤ 0) :
    (Remote.handleUpdateQuantity gw w lineId q).state =
      (Remote.handleRemoveItem gw w lineId).state ∧
    (Remote.handleUpdateQuantity gw w lineId q).calls =
      (Remote.handleRemoveItem gw w lineId).calls ∧
    (w.state.cartId = none → Remote.handleUpdateQuantity gw w lineId q = w) ∧
    (∀ cid, w.state.cartId = some cid →
      (Remote.handleUpdateQuantity gw w lineId q).calls =
        w.calls ++ [RemoteCall.remove cid [lineId]]) ∧
    (∀ cid cart, w.state.cartId = some cid → cid ≠ "" →
      w.store = RawStored.objVal (some cid) →
      gw (RemoteCall.remove cid [lineId]) = .ok cart → cart.id = cid →
      (Remote.handleUpdateQuantity gw w lineId q).store =
        (Remote.handleRemoveItem gw w lineId).store) ∧
    (∀ cid m, w.state.cartId = some cid →
      gw (RemoteCall.remove cid [lineId]) = .error m →
      (Remote.handleUpdateQuantity gw w lineId q).store =
        (Remote.handleRemoveItem gw w lineId).store) := by
  have hmain : (Remote.handleUpdateQuantity gw w lineId q).state =
      (Remote.handleRemoveItem gw w lineId).state ∧
      (Remote.handleUpdateQuantity gw w lineId q).calls =
        (Remote.handleRemoveItem gw w lineId).calls := by
    rcases hcid : w.state.cartId with _ | cid
    · simp [Remote.handleUpdateQuantity, Remote.handleRemoveItem, hcid]
    · cases hgw : gw (RemoteCall.remove cid [lineId]) with
      | ok cart =>
          by_cases hlen : (Remote.normalizeCart cart).items.length = 0
          · simp [Remote.handleUpdateQuantity, Remote.handleRemoveItem, hcid,
              hq, hgw, hlen]
          · have hpos : 0 < (Remote.normalizeCart cart).items.length :=
              Nat.pos_of_ne_zero hlen
            simp [Remote.handleUpdateQuantity, Remote.handleRemoveItem, hcid,
              hq, hgw, hlen, hpos]
      | error m =>
          simp [Remote.handleUpdateQuantity, Remote.handleRemoveItem, hcid,
            hq, hgw]
  refine ⟨hmain.1, hmain.2, ?_, ?_, ?_, ?_⟩
  · intro hcid
    simp [Remote.handleUpdateQuantity, hcid]
  · intro cid hcid
    cases hgw : gw (RemoteCall.remove cid [lineId]) with
    | ok cart =>
        by_cases hlen : (Remote.normalizeCart cart).items.length = 0
        · simp [Remote.handleUpdateQuantity, hcid, hq, hgw, hlen]
        · have hpos : 0 < (Remote.normalizeCart cart).items.length :=
            Nat.pos_of_ne_zero hlen
          simp [Remote.handleUpdateQuantity, hcid, hq, hgw, hpos]
    | error m => simp [Remote.handleUpdateQuantity, hcid, hq, hgw]
  · intro cid cart hcid hne hstore hgw hid
    by_cases hlen : (Remote.normalizeCart cart).items.length = 0
    · simp [Remote.handleUpdateQuantity, Remote.handleRemoveItem, hcid, hq,
        hgw, hlen]
    · have hpos : 0 < (Remote.normalizeCart cart).items.length :=
        Nat.pos_of_ne_zero hlen
      have hcart : (Remote.normalizeCart cart).cartId = cid := hid
      simp [Remote.handleUpdateQuantity, Remote.handleRemoveItem, hcid, hq,
        hgw, hlen, hpos, Remote.persistCartId, hcart, hne, hstore]
  · intro cid m hcid hgw
    simp [Remote.handleUpdateQuantity, Remote.handleRemoveItem, hcid, hq, hgw]

/-- Witness for C3: a zero-quantity update equals removal on the live
sample world. -/
theorem C3_nonpositive_update_is_removal_witness :
    (Remote.handleUpdateQuantity gwOnlyA wLive "line-B" 0).state =
      (Remote.handleRemoveItem gwOnlyA wLive "line-B").state :=
  (C3_nonpositive_update_is_removal gwOnlyA wLive "line-B" 0 (by decide)).1

/-- C4: every successful gateway response is merged wholesale: whatever the
previous local items were, after a successful addItem, updateQuantity or
removeItem the local items equal exactly the normalized projection of the
response's lines. -/
theorem C4_wholesale_merge (gw : Gateway) (w : Remote.World)
    (v lineId : String) (q : Int) (cart : RemoteCart) :
    (gw (Remote.addCall w.state v q) = .ok cart →
      (Remote.handleAddToCart gw w v q).state.items =
        cart.lines.map Remote.normalizeItem) ∧
    (∀ cid, w.state.cartId = some cid → ¬ q ≤ 0 →
      gw (RemoteCall.update cid [⟨lineId, q⟩]) = .ok cart →
      (Remote.handleUpdateQuantity gw w lineId q).state.items =
        cart.lines.map Remote.normalizeItem) ∧
    (∀ cid, w.state.cartId = some cid → q ≤ 0 →
      gw (RemoteCall.remove cid [lineId]) = .ok cart →
      (Remote.handleUpdateQuantity gw w lineId q).state.items =
        cart.lines.map Remote.normalizeItem) ∧
    (∀ cid, w.state.cartId = some cid →
      gw (RemoteCall.remove cid [lineId]) = .ok cart →
      (Remote.handleRemoveItem gw w lineId).state.items =
        cart.lines.map Remote.normalizeItem) := by
  refine ⟨?_, ?_, ?_, ?_⟩
  · intro hgw
    simp [Remote.handleAddToCart, hgw, Remote.cartReducer,
      Remote.NormalizedCart.toPayload, Remote.normalizeCart]
  · intro cid hcid hq hgw
    simp [Remote.handleUpdateQuantity, hcid, hq, hgw, Remote.cartReducer,
      Remote.NormalizedCart.toPayload, Remote.normalizeCart]
  · intro cid hcid hq hgw
    by_cases hlen : (Remote.normalizeCart cart).items.length = 0
    · have hlines : cart.lines = [] := by
        have := hlen
        simpa [Remote.normalizeCart] using this
      simp [Remote.handleUpdateQuantity, hcid, hq, hgw, hlen, hlines,
        Remote.cartReducer, Remote.initialState]
    · have hll : cart.lines ≠ [] := by
        intro h
        exact hlen (by simp [Remote.normalizeCart, h])
      have hpos : 0 < cart.lines.length := List.length_pos.mpr hll
      simp [Remote.handleUpdateQuantity, hcid, hq, hgw, hlen, hpos,
        Remote.cartReducer, Remote.NormalizedCart.toPayload,
        Remote.normalizeCart]
  · intro cid hcid hgw
    by_cases hlen : (Remote.normalizeCart cart).items.length = 0
    · have hlines : cart.lines = [] := by
        have := hlen
        simpa [Remote.normalizeCart] using this
      simp [Remote.handleRemoveItem, hcid, hgw, hlen, hlines,
        Remote.cartReducer, Remote.initialState]
    · have hll : cart.lines ≠ [] := by
        intro h
        exact hlen (by simp [Remote.normalizeCart, h])
      simp [Remote.handleRemoveItem, hcid, hgw, hlen, hll,
        Remote.cartReducer, Remote.NormalizedCart.toPayload,
        Remote.normalizeCart]

/-- Witness for C4: removing B from the two-line view, with the gateway
returning a cart holding only A, leaves exactly the normalization of A. -/
theorem C4_wholesale_merge_witness :
    (Remote.handleRemoveItem gwOnlyA wLive "line-B").state.items = [itemA] :=
  (C4_wholesale_merge gwOnlyA wLive "V1" "line-B" 2 cartOnlyA).2.2.2
    "cart-1" rfl rfl

/-- C5: when a removal (or zero-quantity update) succeeds and the returned
cart has no lines, both the in-memory handle and the durably stored handle
are cleared — a later load finds nothing and a subsequent addItem issues a
create call; when the returned cart is non-empty the handle is kept (the
store untouched) and the cart is merged normally. -/
theorem C5_handle_forgetting (gw : Gateway) (w : Remote.World)
    (lineId cid : String) (cart : RemoteCart)
    (hcid : w.state.cartId = some cid)
    (hok : gw (RemoteCall.remove cid [lineId]) = .ok cart) :
    (cart.lines = [] →
      (Remote.handleRemoveItem gw w lineId).state.cartId = none ∧
      (Remote.handleRemoveItem gw w lineId).store = RawStored.absent ∧
      Remote.loadCartId (Remote.handleRemoveItem gw w lineId).store =
        (none, RawStored.absent) ∧
      (∀ gw2 : Gateway, ∀ v : String, ∀ q : Int,
        (Remote.handleAddToCart gw2 (Remote.handleRemoveItem gw w lineId)
          v q).calls =
          (Remote.handleRemoveItem gw w lineId).calls ++
            [RemoteCall.create [⟨v, q⟩]])) ∧
    (cart.lines ≠ [] →
      (Remote.handleRemoveItem gw w lineId).state.cartId = some cart.id ∧
      (Remote.handleRemoveItem gw w lineId).store = w.store ∧
      (Remote.handleRemoveItem gw w lineId).state.items =
        cart.lines.map Remote.normalizeItem) ∧
    (∀ q : Int, q ≤ 0 → cart.lines = [] →
      (Remote.handleUpdateQuantity gw w lineId q).state.cartId = none ∧
      (Remote.handleUpdateQuantity gw w lineId q).store = RawStored.absent) := by
  refine ⟨?_, ?_, ?_⟩
  · intro hlines
    have hrem : Remote.handleRemoveItem gw w lineId =
        { state := Remote.initialState
          store := Remote.persistCartId none
          calls := w.calls ++ [RemoteCall.remove cid [lineId]] } := by
      simp [Remote.handleRemoveItem, hcid, hok, Remote.normalizeCart, hlines,
        Remote.cartReducer]
    refine ⟨by rw [hrem]; rfl, by rw [hrem]; rfl, by rw [hrem]; rfl, ?_⟩
    intro gw2 v q
    cases hgw2 : gw2 (RemoteCall.create [⟨v, q⟩]) <;>
      simp [Remote.handleAddToCart, Remote.addCall, hrem,
        Remote.initialState, hgw2]
  · intro hlines
    have hpos : 0 < cart.lines.length := List.length_pos.mpr hlines
    refine ⟨?_, ?_, ?_⟩ <;>
      simp [Remote.handleRemoveItem, hcid, hok, Remote.normalizeCart, hlines,
        Remote.cartReducer, Remote.NormalizedCart.toPayload]
  · intro q hq hlines
    constructor <;>
      simp [Remote.handleUpdateQuantity, hcid, hq, hok, Remote.normalizeCart,
        hlines, Remote.cartReducer, Remote.initialState, Remote.persistCartId]

/-- Witness for C5: removing the last line with the gateway returning the
empty cart clears both the in-memory and the stored handle. -/
theorem C5_handle_forgetting_witness :
    (Remote.handleRemoveItem gwEmpty wLive "line-A").state.cartId = none ∧
    (Remote.handleRemoveItem gwEmpty wLive "line-A").store =
      RawStored.absent := by
  have h := (C5_handle_forgetting gwEmpty wLive "line-A" "cart-1" cartEmpty
    rfl rfl).1 rfl
  exact ⟨h.1, h.2.1⟩

/-- C6: from a no-handle state, addItem persists a handle to the durable
store exactly when the create call succeeds: on success the store holds the
returned cart's id (which a later load returns) and the returned cart
becomes the view; on a failed create the store is left exactly as it
was. -/
theorem C6_persist_only_after_create (gw : Gateway) (w : Remote.World)
    (v : String) (q : Int) (hnone : w.state.cartId = none) :
    (∀ cart, gw (RemoteCall.create [⟨v, q⟩]) = .ok cart → cart.id ≠ "" →
      (Remote.handleAddToCart gw w v q).store =
        RawStored.objVal (some cart.id) ∧
      Remote.loadCartId (Remote.handleAddToCart gw w v q).store =
        (some cart.id, RawStored.objVal (some cart.id)) ∧
      (Remote.handleAddToCart gw w v q).state.cartId = some cart.id ∧
      (Remote.handleAddToCart gw w v q).state.items =
        cart.lines.map Remote.normalizeItem) ∧
    (∀ m, gw (RemoteCall.create [⟨v, q⟩]) = .error m →
      (Remote.handleAddToCart gw w v q).store = w.store) := by
  constructor
  · intro cart hgw hne
    refine ⟨?_, ?_, ?_, ?_⟩ <;>
      simp [Remote.handleAddToCart, Remote.addCall, hnone, hgw,
        Remote.persistCartId, Remote.normalizeCart, hne, Remote.loadCartId,
        Remote.cartReducer, Remote.NormalizedCart.toPayload]
  · intro m hgw
    simp [Remote.handleAddToCart, Remote.addCall, hnone, hgw]

/-- Witness for C6: a successful create from the pristine world stores the
returned cart id; a failed create leaves the empty store empty. -/
theorem C6_persist_only_after_create_witness :
    (Remote.handleAddToCart gwAB w0 "V1" 1).store =
      RawStored.objVal (some cartAB.id) ∧
    (Remote.handleAddToCart gwFail w0 "V1" 1).store = w0.store := by
  refine ⟨?_, ?_⟩
  · exact ((C6_persist_only_after_create gwAB w0 "V1" 1 rfl).1 cartAB rfl
      (by decide)).1
  · exact (C6_persist_only_after_create gwFail w0 "V1" 1 rfl).2 failMsg rfl

/-- C7: however the gateway call resolves, every mutating operation ends
with loading false: addItem unconditionally, updateQuantity and removeItem
whenever a handle exists (and their no-handle no-op never sets loading, so
an Idle state stays Idle). -/
theorem C7_always_terminal_idle (gw : Gateway) (w : Remote.World)
    (v lineId : String) (q q2 : Int) :
    (Remote.handleAddToCart gw w v q).state.loading = false ∧
    (∀ cid, w.state.cartId = some cid →
      (Remote.handleUpdateQuantity gw w lineId q2).state.loading = false ∧
      (Remote.handleRemoveItem gw w lineId).state.loading = false) ∧
    (w.state.cartId = none →
      Remote.handleUpdateQuantity gw w lineId q2 = w ∧
      Remote.handleRemoveItem gw w lineId = w) ∧
    (w.state.loading = false →
      (Remote.handleUpdateQuantity gw w lineId q2).state.loading = false ∧
      (Remote.handleRemoveItem gw w lineId).state.loading = false) := by
  have hupd : ∀ cid, w.state.cartId = some cid →
      (Remote.handleUpdateQuantity gw w lineId q2).state.loading = false := by
    intro cid hcid
    by_cases hq : q2 ≤ 0
    · cases hgw : gw (RemoteCall.remove cid [lineId]) with
      | ok cart =>
          by_cases hlen : (Remote.normalizeCart cart).items.length = 0
          · simp [Remote.handleUpdateQuantity, hcid, hq, hgw, hlen,
              Remote.cartReducer, Remote.initialState]
          · have hpos : 0 < (Remote.normalizeCart cart).items.length :=
              Nat.pos_of_ne_zero hlen
            simp [Remote.handleUpdateQuantity, hcid, hq, hgw, hpos,
              Remote.cartReducer]
      | error m =>
          simp [Remote.handleUpdateQuantity, hcid, hq, hgw, Remote.cartReducer]
    · cases hgw : gw (RemoteCall.update cid [⟨lineId, q2⟩]) with
      | ok cart =>
          simp [Remote.handleUpdateQuantity, hcid, hq, hgw, Remote.cartReducer]
      | error m =>
          simp [Remote.handleUpdateQuantity, hcid, hq, hgw, Remote.cartReducer]
  have hrem : ∀ cid, w.state.cartId = some cid →
      (Remote.handleRemoveItem gw w lineId).state.loading = false := by
    intro cid hcid
    cases hgw : gw (RemoteCall.remove cid [lineId]) with
    | ok cart =>
        by_cases hlen : (Remote.normalizeCart cart).items.length = 0
        · simp [Remote.handleRemoveItem, hcid, hgw, hlen, Remote.cartReducer,
            Remote.initialState]
        · simp [Remote.handleRemoveItem, hcid, hgw, hlen, Remote.cartReducer]
    | error m =>
        simp [Remote.handleRemoveItem, hcid, hgw, Remote.cartReducer]
  have hadd : (Remote.handleAddToCart gw w v q).state.loading = false := by
    cases hgw : gw (Remote.addCall w.state v q) with
    | ok cart => simp [Remote.handleAddToCart, hgw, Remote.cartReducer]
    | error m => simp [Remote.handleAddToCart, hgw, Remote.cartReducer]
  refine ⟨hadd, fun cid hcid => ⟨hupd cid hcid, hrem cid hcid⟩, ?_, ?_⟩
  · intro hcid
    constructor <;> simp [Remote.handleUpdateQuantity, Remote.handleRemoveItem,
      hcid]
  · intro hidle
    rcases hcid : w.state.cartId with _ | cid
    · constructor <;>
        simp [Remote.handleUpdateQuantity, Remote.handleRemoveItem, hcid, hidle]
    · exact ⟨hupd cid hcid, hrem cid hcid⟩

/-- Witness for C7: on the live sample world a failing update and a
successful removal both end Idle. -/
theorem C7_always_terminal_idle_witness :
    (Remote.handleUpdateQuantity gwFail wLive "line-A" 2).state.loading =
      false ∧
    (Remote.handleRemoveItem gwOnlyA wLive "line-A").state.loading = false := by
  have h := (C7_always_terminal_idle gwFail wLive "V1" "line-A" 1 2).2.1
    "cart-1" rfl
  have h2 := (C7_always_terminal_idle gwOnlyA wLive "V1" "line-A" 1 2).2.1
    "cart-1" rfl
  exact ⟨h.1, h2.2⟩
